import Mathlib

/-! Shallow embedding of the bad-year classification and aggregation engine of the
AA West Africa rainfall dashboard.  Sources: src/app.py,
src/Multi_Season_Rainfall_Hindcast_Analysis.py (abbreviated "MS" below) and
src/pages/Multi_Season_Rainfall_Hindcast_Analysis.py (abbreviated "pages").

A loaded series row is a (Year, Rainfall) pair; rainfall is `none` when the raw
cell failed `pd.to_numeric(..., errors="coerce")` (NaN).  Raw cells that still
have to go through year parsing are modelled as `Option Int`: `none` is a cell
whose year failed to parse (NaN after coercion).  Rainfall amounts are modelled
as rationals; pandas comparisons against NaN are false, and `sort_values` puts
NaN rows last - both are modelled explicitly below. -/

/-- One row of a loaded rainfall series: integer year, rainfall or missing (NaN). -/
structure Row where
  year : Int
  rain : Option ℚ
  deriving DecidableEq

/-- Pandas boolean mask `df["Rainfall"] < threshold`: a NaN cell compares false. -/
def rainBelow (r : Row) (T : ℚ) : Bool :=
  match r.rain with
  | some v => decide (v < T)
  | none => false

/-- Row order used by `df.sort_values(by="Rainfall")`: ascending rainfall with NaN
rows placed after every numeric row (pandas `na_position="last"`). -/
def rainLE (a b : Row) : Prop :=
  match b.rain with
  | none => True
  | some y =>
    match a.rain with
    | none => False
    | some x => x ≤ y

instance : DecidableRel rainLE := fun a b =>
  match a, b with
  | ⟨_, _⟩, ⟨_, none⟩ => isTrue trivial
  | ⟨_, none⟩, ⟨_, some _⟩ => isFalse (fun h => h)
  | ⟨_, some x⟩, ⟨_, some y⟩ => inferInstanceAs (Decidable (x ≤ y))

instance : IsTotal Row rainLE := by
  constructor
  intro a b
  rcases a with ⟨_, _ | x⟩ <;> rcases b with ⟨_, _ | y⟩ <;> simp [rainLE]
  exact le_total x y

instance : IsTrans Row rainLE := by
  constructor
  intro a b c hab hbc
  rcases a with ⟨_, _ | x⟩ <;> rcases b with ⟨_, _ | y⟩ <;> rcases c with ⟨_, _ | z⟩ <;>
    simp [rainLE] at * <;> try exact hab.trans hbc

/-- app.py `load_data`, lines 53-59: parse the year column, drop the rows whose
year failed to parse (`df.dropna(subset=["Year"], inplace=True)`), shift by 1990;
rainfall is parsed independently and a missing rainfall does not drop the row. -/
def app_load_data (raw : List (Option Int × Option ℚ)) : List Row :=
  raw.filterMap (fun c => c.1.map (fun y => Row.mk (y + 1990) c.2))

/-- app.py line 141: `df[df["Rainfall"] < threshold]["Year"].tolist()` - the
absolute-threshold classifier of one series. -/
def app_bad_years (df : List Row) (T : ℚ) : List Int :=
  (df.filter (fun r => rainBelow r T)).map Row.year

/-- MS lines 159-161, the condition of the dict comprehension:
`year in df["Year"].values and df[df["Year"] == year]["Rainfall"].values[0] < threshold` -
the year occurs in the series and the FIRST row carrying it has rainfall below T. -/
def ms_flag (df : List Row) (T : ℚ) (y : Int) : Bool :=
  df.any (fun r => r.year == y) &&
    (match (df.filter (fun r => r.year == y)).head? with
     | some r => rainBelow r T
     | none => false)

/-- MS lines 159-161, the whole dict comprehension: it creates one key for EVERY
year occurring in any selected series (first-occurrence order over
`for df in data_dict.values() for year in df["Year"].values`), mapped to the
column names whose series flag that year - possibly to no column at all. -/
def ms_bad_years_dict (dd : List (String × List Row)) (T : ℚ) : List (Int × List String) :=
  ((dd.map (fun cd => cd.2.map Row.year)).flatten).foldl
    (fun acc y =>
      if acc.any (fun p => p.1 == y) then acc
      else acc ++ [(y, (dd.filter (fun cd => ms_flag cd.2 T y)).map (fun cd => cd.1))])
    []

/-- app.py line 199 / MS line 227 / pages line 92:
`num_values = int(len(df_sorted) * (freq_percentage / 100))`, the row count taken
over the WHOLE frame, missing-rainfall rows included (exact arithmetic:
`⌊len · P / 100⌋`). -/
def num_values (df : List Row) (P : ℕ) : ℕ := df.length * P / 100

/-- Lowest-percentage ("frequency") classifier, app.py lines 198-200 / MS lines
226-228 / pages lines 91-93: sort ascending by rainfall (NaN rows last), take the
first `num_values` rows, list their years. -/
def freq_bad_years (df : List Row) (P : ℕ) : List Int :=
  ((List.insertionSort rainLE df).take (num_values df P)).map Row.year

/-- Number of rows whose rainfall parsed (non-NaN): the spec's "non-missing rows". -/
def non_missing_count (df : List Row) : ℕ :=
  (df.filter (fun r => r.rain.isSome)).length

/-- MS lines 89-95.  Line 89, `df["Year"] = pd.to_numeric(df["Year"],
errors="coerce").dropna().astype(int)`, assigns the dropped series back into the
frame: pandas realigns it on the index, so a row whose year failed to parse stays
in the frame with Year = NaN (`none`) - no row is removed.  Lines 92-95: if the
count of parsed years below 1000 exceeds half the row count (`df.shape[0] / 2`),
add `current_year - max(parsed years)` to every parsed year (NaN stays NaN). -/
def ms_normalize_years (raw : List (Option Int)) (currentYear : Int) : List (Option Int) :=
  let parsed := raw.filterMap id
  if 2 * (parsed.filter (fun v => v < 1000)).length > raw.length then
    match parsed.max? with
    | some m => raw.map (Option.map (fun v => v + (currentYear - m)))
    | none => raw
  else raw

/-- MS lines 80-99: the rows of one loaded series - year column processed by
`ms_normalize_years`, rainfall column parsed independently, in place. -/
def ms_load_rows (raw : List (Option Int × Option ℚ)) (currentYear : Int) :
    List (Option Int × Option ℚ) :=
  List.zip (ms_normalize_years (raw.map (fun c => c.1)) currentYear)
    (raw.map (fun c => c.2))

/-- pages lines 95-99 (same shape at MS lines 230-233 and app.py lines 202-205):
record one flagged year for one column in the year → columns map, keeping
first-insertion order of the year keys. -/
def insert_flag (aby : List (Int × List String)) (y : Int) (c : String) :
    List (Int × List String) :=
  if aby.any (fun p => p.1 == y) then
    aby.map (fun p =>
      if p.1 == y then (p.1, if p.2.contains c then p.2 else p.2 ++ [c]) else p)
  else aby ++ [(y, [c])]

/-- pages lines 83-99: loop over the seasons (file order), then over the selected
regions, flag the lowest-percentage years of each present series under the column
name `f"{region} - {season}"`. -/
def pages_all_bad_years (seasonData : List (String × List (String × List Row)))
    (regions : List String) (P : ℕ) : List (Int × List String) :=
  seasonData.foldl (fun aby sd =>
    regions.foldl (fun aby region =>
      match sd.2.lookup region with
      | some df =>
        (freq_bad_years df P).foldl
          (fun aby y => insert_flag aby y (region ++ " - " ++ sd.1)) aby
      | none => aby) aby) []

/-- Python `col.startswith(region)` (pages line 108). -/
def str_starts_with (c region : String) : Bool := List.isPrefixOf region.data c.data

/-- pages line 109 sort key `lambda x: x.split(" - ")[1]` (the out-of-range index,
unreachable at the call sites exercised here, is modelled as ""). -/
def season_key (c : String) : String := (c.splitOn " - ").getD 1 ""

/-- pages lines 106-111: the intended region-major column order, computed from the
CURRENT frame columns `formatted_df.columns` - which at that point of the script
hold nothing but "Year" (line 103 created the frame from the year list alone). -/
def pages_column_order (regions : List String) (cols : List String) : List String :=
  "Year" :: (regions.map (fun region =>
    List.insertionSort (fun a b => season_key a ≤ season_key b)
      (cols.filter (fun c => str_starts_with c region)))).flatten

/-- pages lines 103-118: the final column list of the displayed frame - the
region-major `pages_column_order` over the frame's sole column "Year", then every
flagged column appended at the end, in first-appearance order of the scan
`for year in all_bad_years: for col in all_bad_years[year]` (lines 114-117). -/
def pages_final_columns (regions : List String) (aby : List (Int × List String)) :
    List String :=
  aby.foldl (fun cols p =>
    p.2.foldl (fun cols c => if cols.contains c then cols else cols ++ [c]) cols)
    (pages_column_order regions ["Year"])

/-- MS line 274: `set(k for v in all_bad_years.values() for k in v.keys())`,
modelled as first-appearance deduplication of the flagged column names. -/
def aby_cols (aby : List (Int × List String)) : List String :=
  ((aby.map (fun p => p.2)).flatten).foldl
    (fun acc c => if acc.contains c then acc else acc ++ [c]) []

/-- MS line 278: `year in all_bad_years and col_name in all_bad_years[year]`. -/
def flagged_for (aby : List (Int × List String)) (c : String) (y : Int) : Bool :=
  aby.any (fun p => p.1 == y && p.2.contains c)

/-- MS lines 267-285, the historical frequency analyzer: the whole loop is guarded
by `if all_bad_years and selected_years:` (line 270); inside, each flagged column
name receives `count / total_selected_years * 100` when `total_selected_years > 0`
and 0 otherwise (lines 282-285). -/
def selected_years_percentages (aby : List (Int × List String)) (sel : List Int) :
    List (String × ℚ) :=
  if aby ≠ [] ∧ sel ≠ [] then
    (aby_cols aby).map (fun c =>
      (c, if 0 < sel.length then
            ((sel.filter (fun y => flagged_for aby c y)).length : ℚ) /
              (sel.length : ℚ) * 100
          else 0))
  else []

/-- MS line 288: the bar chart is rendered only when
`selected_years_percentages and any(v > 0 for v in ...)`; otherwise the
"nothing notable" warning (`bad_years_msg_historical`) is shown. -/
def show_chart (aby : List (Int × List String)) (sel : List Int) : Bool :=
  !(selected_years_percentages aby sel).isEmpty &&
    (selected_years_percentages aby sel).any (fun p => decide (0 < p.2))

/-- Two-decimal display rounding used by the bar labels `f"{v:.2f}%"` (MS line
304); ties-to-even at exact half-cents aside, this is rounding to cents. -/
def display_round2 (q : ℚ) : ℚ := ((Int.floor (q * 100 + 1/2) : ℤ) : ℚ) / 100

/-! Helper lemmas shared by the claim theorems. -/

theorem num_values_le (df : List Row) (P : ℕ) (h : P ≤ 100) :
    num_values df P ≤ df.length := by
  unfold num_values
  calc df.length * P / 100 ≤ df.length * 100 / 100 :=
        Nat.div_le_div_right (Nat.mul_le_mul_left _ h)
    _ = df.length := Nat.mul_div_cancel df.length (by norm_num)

theorem take_isSome_of_pairwise (l : List Row) (hl : l.Pairwise rainLE) (n : ℕ)
    (hn : n ≤ (l.filter (fun r => r.rain.isSome)).length) :
    ∀ r ∈ l.take n, r.rain.isSome := by
  induction l generalizing n with
  | nil => intro r hr; simp at hr
  | cons x xs ih =>
    rcases List.pairwise_cons.mp hl with ⟨hx, hxs⟩
    cases n with
    | zero => intro r hr; simp at hr
    | succ m =>
      intro r hr
      rcases hs : x.rain with _ | v
      · exfalso
        have hall : ∀ y ∈ xs, y.rain = none := by
          intro y hy
          have := hx y hy
          rcases hys : y.rain with _ | w
          · rfl
          · rw [rainLE, hys, hs] at this; exact absurd this (fun h => h)
        have hzero : ((x :: xs).filter (fun r => r.rain.isSome)).length = 0 := by
          rw [List.length_eq_zero, List.filter_eq_nil_iff]
          intro a ha
          rcases List.mem_cons.mp ha with rfl | ha
          · simp [hs]
          · simp [hall a ha]
        omega
      · have hfl : ((x :: xs).filter (fun r => r.rain.isSome)).length
            = (xs.filter (fun r => r.rain.isSome)).length + 1 := by
          simp [List.filter_cons, hs]
        have hr' : r = x ∨ r ∈ xs.take m := by
          have : (x :: xs).take (m + 1) = x :: xs.take m := rfl
          rw [this] at hr
          exact List.mem_cons.mp hr
        rcases hr' with rfl | hr2
        · simp [hs]
        · exact ih hxs m (by omega) r hr2

theorem rainLE_some_some {a b : Row} {x y : ℚ} (ha : a.rain = some x)
    (hb : b.rain = some y) : rainLE a b ↔ x ≤ y := by
  unfold rainLE
  rw [hb, ha]

/-- C1 (amended): for a series with pairwise-distinct years and 0 < P ≤ 100, the
lowest-percentage classifier flags exactly `⌊len(ALL rows) · P / 100⌋` years - the
row count of the whole (filtered) frame, missing-rainfall rows included, not the
spec's count of non-missing rows - and every flagged year with non-missing
rainfall has rainfall ≤ every unflagged year's non-missing rainfall. -/
theorem freq_bad_years_count_and_order (df : List Row) (P : ℕ) (hP : 0 < P)
    (hP100 : P ≤ 100) (hU : (df.map Row.year).Nodup) :
    (freq_bad_years df P).length = df.length * P / 100 ∧
    ∀ r ∈ df, ∀ q ∈ df, r.year ∈ freq_bad_years df P → q.year ∉ freq_bad_years df P →
      ∀ a b, r.rain = some a → q.rain = some b → a ≤ b := by
  have hperm : (List.insertionSort rainLE df).Perm df := List.perm_insertionSort rainLE df
  have hlen : (List.insertionSort rainLE df).length = df.length := hperm.length_eq
  have hn : num_values df P ≤ df.length := num_values_le df P hP100
  constructor
  · rw [freq_bad_years, List.length_map, List.length_take, hlen]
    exact Nat.min_eq_left (by rw [num_values] at hn ⊢; exact hn)
  · intro r hr q hq hrf hqf a b hra hqb
    rcases List.mem_map.mp hrf with ⟨r₀, hr₀tk, hr₀y⟩
    have hr₀df : r₀ ∈ df := hperm.subset (List.mem_of_mem_take hr₀tk)
    have hr₀ : r₀ = r := List.inj_on_of_nodup_map hU hr₀df hr hr₀y
    have hrtk : r ∈ (List.insertionSort rainLE df).take (num_values df P) :=
      hr₀ ▸ hr₀tk
    have hq' : q ∈ List.insertionSort rainLE df := hperm.mem_iff.mpr hq
    have hqdrop : q ∈ (List.insertionSort rainLE df).drop (num_values df P) := by
      rcases List.mem_append.mp
          (by rw [List.take_append_drop]; exact hq' :
            q ∈ (List.insertionSort rainLE df).take (num_values df P) ++
              (List.insertionSort rainLE df).drop (num_values df P)) with h | h
      · exact absurd (List.mem_map.mpr ⟨q, h, rfl⟩) hqf
      · exact h
    have hsorted : ((List.insertionSort rainLE df).take (num_values df P) ++
        (List.insertionSort rainLE df).drop (num_values df P)).Pairwise rainLE := by
      rw [List.take_append_drop]
      exact List.sorted_insertionSort rainLE df
    have hrel : rainLE r q := (List.pairwise_append.mp hsorted).2.2 r hrtk q hqdrop
    exact (rainLE_some_some hra hqb).mp hrel

/-- C1, counterexample to the claim as stated: in a 4-row series with a single
non-missing rainfall row, P = 50 must flag `⌊1·50/100⌋ = 0` years per the claim,
but the classifier computes its count from ALL rows and flags 2 years. -/
theorem freq_bad_years_nonmissing_count_cex :
    non_missing_count
        [Row.mk 1991 (some 10), Row.mk 1992 none, Row.mk 1993 none, Row.mk 1994 none]
      * 50 / 100 = 0 ∧
    (freq_bad_years
        [Row.mk 1991 (some 10), Row.mk 1992 none, Row.mk 1993 none, Row.mk 1994 none]
      50).length = 2 := by decide

/-- C1, witness: the amended theorem applied to the spec's own scenario series
(years 1991-1994, rainfalls 100/50/200/30) at P = 25. -/
theorem freq_bad_years_count_and_order_witness :
    ((0 < 25 ∧ 25 ≤ 100) ∧
      (([Row.mk 1991 (some 100), Row.mk 1992 (some 50), Row.mk 1993 (some 200),
          Row.mk 1994 (some 30)].map Row.year).Nodup)) ∧
    ((freq_bad_years [Row.mk 1991 (some 100), Row.mk 1992 (some 50),
        Row.mk 1993 (some 200), Row.mk 1994 (some 30)] 25).length
      = [Row.mk 1991 (some 100), Row.mk 1992 (some 50), Row.mk 1993 (some 200),
          Row.mk 1994 (some 30)].length * 25 / 100 ∧
    ∀ r ∈ [Row.mk 1991 (some 100), Row.mk 1992 (some 50), Row.mk 1993 (some 200),
        Row.mk 1994 (some 30)], ∀ q ∈ [Row.mk 1991 (some 100), Row.mk 1992 (some 50),
        Row.mk 1993 (some 200), Row.mk 1994 (some 30)],
      r.year ∈ freq_bad_years [Row.mk 1991 (some 100), Row.mk 1992 (some 50),
        Row.mk 1993 (some 200), Row.mk 1994 (some 30)] 25 →
      q.year ∉ freq_bad_years [Row.mk 1991 (some 100), Row.mk 1992 (some 50),
        Row.mk 1993 (some 200), Row.mk 1994 (some 30)] 25 →
      ∀ a b, r.rain = some a → q.rain = some b → a ≤ b) :=
  ⟨⟨⟨by decide, by decide⟩, by decide⟩,
    freq_bad_years_count_and_order _ 25 (by decide) (by decide) (by decide)⟩

theorem rainBelow_some {r : Row} {v T : ℚ} (h : r.rain = some v) :
    rainBelow r T = decide (v < T) := by
  unfold rainBelow
  rw [h]

theorem rainBelow_none {r : Row} {T : ℚ} (h : r.rain = none) :
    rainBelow r T = false := by
  unfold rainBelow
  rw [h]

/-- C2: on a series with pairwise-distinct years, both absolute-threshold
classifiers (app.py line 141 and the first-row variant of MS lines 159-161) flag
exactly the years whose rainfall is strictly below T; a year whose rainfall
equals T (so does not satisfy `v < T`) is not flagged. -/
theorem threshold_flags_exactly_below (df : List Row) (T : ℚ) (y : Int)
    (hU : (df.map Row.year).Nodup) :
    (y ∈ app_bad_years df T ↔ ∃ v, Row.mk y (some v) ∈ df ∧ v < T) ∧
    (ms_flag df T y = true ↔ ∃ v, Row.mk y (some v) ∈ df ∧ v < T) ∧
    ∀ v, Row.mk y (some v) ∈ df → ¬ v < T → y ∉ app_bad_years df T := by
  have h1 : y ∈ app_bad_years df T ↔ ∃ v, Row.mk y (some v) ∈ df ∧ v < T := by
    constructor
    · intro hy
      rcases List.mem_map.mp hy with ⟨r, hrf, hry⟩
      rcases List.mem_filter.mp hrf with ⟨hrdf, hrb⟩
      rcases hrr : r.rain with _ | v
      · rw [rainBelow_none hrr] at hrb
        exact absurd hrb (by simp)
      · rw [rainBelow_some hrr] at hrb
        refine ⟨v, ?_, of_decide_eq_true hrb⟩
        have hrow : Row.mk y (some v) = r := by
          rcases r with ⟨ry, rr⟩
          simp only at hry hrr
          rw [hry, hrr]
        rw [hrow]
        exact hrdf
    · rintro ⟨v, hmem, hv⟩
      exact List.mem_map.mpr ⟨Row.mk y (some v),
        List.mem_filter.mpr ⟨hmem, by rw [rainBelow_some rfl]; exact decide_eq_true hv⟩, rfl⟩
  refine ⟨h1, ?_, ?_⟩
  · constructor
    · intro h
      unfold ms_flag at h
      rw [Bool.and_eq_true] at h
      obtain ⟨hany, hmatch⟩ := h
      cases hfl : df.filter (fun r => r.year == y) with
      | nil => rw [hfl] at hmatch; simp at hmatch
      | cons r rest =>
        rw [hfl, List.head?_cons] at hmatch
        have hmatch' : rainBelow r T = true := hmatch
        have hrf : r ∈ df.filter (fun r => r.year == y) := by
          rw [hfl]; exact List.mem_cons_self r rest
        rcases List.mem_filter.mp hrf with ⟨hrdf, hry⟩
        have hry' : r.year = y := by simpa using hry
        rcases hrr : r.rain with _ | v
        · rw [rainBelow_none hrr] at hmatch'
          exact absurd hmatch' (by simp)
        · rw [rainBelow_some hrr] at hmatch'
          refine ⟨v, ?_, of_decide_eq_true hmatch'⟩
          have hrow : Row.mk y (some v) = r := by
            rcases r with ⟨ry, rr⟩
            simp only at hry' hrr
            rw [hry', hrr]
          rw [hrow]
          exact hrdf
    · rintro ⟨v, hmem, hv⟩
      unfold ms_flag
      rw [Bool.and_eq_true]
      constructor
      · exact List.any_eq_true.mpr ⟨Row.mk y (some v), hmem, by simp⟩
      · have hvf : Row.mk y (some v) ∈ df.filter (fun r => r.year == y) :=
          List.mem_filter.mpr ⟨hmem, by simp⟩
        cases hfl : df.filter (fun r => r.year == y) with
        | nil => rw [hfl] at hvf; simp at hvf
        | cons r rest =>
          show rainBelow r T = true
          have hrf : r ∈ df.filter (fun r => r.year == y) := by
            rw [hfl]; exact List.mem_cons_self r rest
          rcases List.mem_filter.mp hrf with ⟨hrdf, hry⟩
          have hry' : r.year = y := by simpa using hry
          have hrow : r = Row.mk y (some v) :=
            List.inj_on_of_nodup_map hU hrdf hmem (by simpa using hry')
          rw [hrow, rainBelow_some rfl]
          exact decide_eq_true hv
  · intro v hvdf hnv hy
    rcases h1.mp hy with ⟨w, hwdf, hwT⟩
    have hrow : Row.mk y (some w) = Row.mk y (some v) :=
      List.inj_on_of_nodup_map hU hwdf hvdf rfl
    have hwv : w = v := by simpa using hrow
    rw [hwv] at hwT
    exact hnv hwT

/-- C2, witness: the theorem applied at the series
[(1991, 3), (1992, 5), (1993, missing)] with threshold T = 5 and year 1992, whose
rainfall equals the threshold. -/
theorem threshold_flags_exactly_below_witness :
    (([Row.mk 1991 (some 3), Row.mk 1992 (some 5), Row.mk 1993 none].map Row.year).Nodup) ∧
    ((1992 ∈ app_bad_years [Row.mk 1991 (some 3), Row.mk 1992 (some 5), Row.mk 1993 none] 5 ↔
        ∃ v, Row.mk 1992 (some v) ∈
          [Row.mk 1991 (some 3), Row.mk 1992 (some 5), Row.mk 1993 none] ∧ v < 5) ∧
      (ms_flag [Row.mk 1991 (some 3), Row.mk 1992 (some 5), Row.mk 1993 none] 5 1992 = true ↔
        ∃ v, Row.mk 1992 (some v) ∈
          [Row.mk 1991 (some 3), Row.mk 1992 (some 5), Row.mk 1993 none] ∧ v < 5) ∧
      ∀ v, Row.mk 1992 (some v) ∈
          [Row.mk 1991 (some 3), Row.mk 1992 (some 5), Row.mk 1993 none] → ¬ v < 5 →
        1992 ∉ app_bad_years [Row.mk 1991 (some 3), Row.mk 1992 (some 5), Row.mk 1993 none] 5) :=
  ⟨by decide, threshold_flags_exactly_below _ 5 1992 (by decide)⟩

/-- C10: the MS threshold classifier decides a duplicated year solely from the
first row bearing it - `df[df["Year"] == year]["Rainfall"].values[0]` - so the
verdict equals the first row's `rainfall < T` test and is unchanged by whatever
rows follow the first occurrence. -/
theorem ms_flag_first_row_decides (pre post : List Row) (r : Row) (T : ℚ) (y : Int)
    (hy : r.year = y) (hpre : ∀ p ∈ pre, p.year ≠ y) :
    ms_flag (pre ++ r :: post) T y = rainBelow r T ∧
    ms_flag (pre ++ r :: post) T y = ms_flag (pre ++ [r]) T y := by
  have hfpre : pre.filter (fun p => p.year == y) = [] := by
    rw [List.filter_eq_nil_iff]
    intro p hp
    simpa using hpre p hp
  have key : ∀ post' : List Row, ms_flag (pre ++ r :: post') T y = rainBelow r T := by
    intro post'
    unfold ms_flag
    rw [List.filter_append, hfpre, List.nil_append,
      List.filter_cons_of_pos (by simpa using hy), List.head?_cons]
    have hany : (pre ++ r :: post').any (fun q => q.year == y) = true :=
      List.any_eq_true.mpr ⟨r, by simp, by simpa using hy⟩
    rw [hany, Bool.true_and]
  exact ⟨key post, by rw [key post, key []]⟩

/-- C10, witness: series [(1990, 9), (2000, 1), (2000, 99)] with T = 5: the first
row for year 2000 (rainfall 1) decides, the later duplicate (rainfall 99) does
not. -/
theorem ms_flag_first_row_decides_witness :
    ((Row.mk 2000 (some 1)).year = 2000 ∧
      ∀ p ∈ [Row.mk 1990 (some (9 : ℚ))], p.year ≠ 2000) ∧
    (ms_flag ([Row.mk 1990 (some 9)] ++ Row.mk 2000 (some 1) :: [Row.mk 2000 (some 99)])
        5 2000 = rainBelow (Row.mk 2000 (some 1)) 5 ∧
      ms_flag ([Row.mk 1990 (some 9)] ++ Row.mk 2000 (some 1) :: [Row.mk 2000 (some 99)])
        5 2000 =
        ms_flag ([Row.mk 1990 (some 9)] ++ [Row.mk 2000 (some 1)]) 5 2000) :=
  ⟨⟨by decide, by decide⟩,
    ms_flag_first_row_decides [Row.mk 1990 (some 9)] [Row.mk 2000 (some 99)]
      (Row.mk 2000 (some 1)) 5 2000 (by decide) (by decide)⟩

/-- C4 (amended): a row with missing rainfall is kept by the loader when its year
parsed (app.py lines 54-59), and is never flagged by the absolute-threshold
classifier; under the lowest-percentage classifier it is not flagged PROVIDED the
computed count `⌊len·P/100⌋` does not exceed the number of non-missing rows -
without that proviso the claim fails (see the counterexample). -/
theorem missing_rain_never_flagged (rows : List (Option Int × Option ℚ))
    (df : List Row) (T : ℚ) (P : ℕ) (r : Row) (hU : (df.map Row.year).Nodup)
    (hr : r ∈ df) (hnone : r.rain = none) :
    (∀ z, (some z, (none : Option ℚ)) ∈ rows → Row.mk (z + 1990) none ∈ app_load_data rows) ∧
    r.year ∉ app_bad_years df T ∧
    (num_values df P ≤ non_missing_count df → r.year ∉ freq_bad_years df P) := by
  refine ⟨?_, ?_, ?_⟩
  · intro z hz
    exact List.mem_filterMap.mpr ⟨(some z, none), hz, rfl⟩
  · intro hy
    rcases List.mem_map.mp hy with ⟨q, hqf, hqy⟩
    rcases List.mem_filter.mp hqf with ⟨hqdf, hqb⟩
    have hq : q = r := List.inj_on_of_nodup_map hU hqdf hr hqy
    rw [hq, rainBelow_none hnone] at hqb
    exact absurd hqb (by simp)
  · intro hle hy
    rcases List.mem_map.mp hy with ⟨q, hqtk, hqy⟩
    have hperm : (List.insertionSort rainLE df).Perm df := List.perm_insertionSort rainLE df
    have hqdf : q ∈ df := hperm.subset (List.mem_of_mem_take hqtk)
    have hq : q = r := List.inj_on_of_nodup_map hU hqdf hr hqy
    have hcount : ((List.insertionSort rainLE df).filter (fun s => s.rain.isSome)).length
        = non_missing_count df := by
      rw [non_missing_count, ← List.countP_eq_length_filter, ← List.countP_eq_length_filter]
      exact hperm.countP_eq _
    have hq2 := take_isSome_of_pairwise _ (List.sorted_insertionSort rainLE df)
      (num_values df P) (by rw [hcount]; exact hle) q hqtk
    rw [hq, hnone] at hq2
    simp at hq2

/-- C4, counterexample to the claim as stated: at P = 100 the lowest-percentage
classifier takes all `⌊2·100/100⌋ = 2` sorted rows, so the year 2002, whose
rainfall is missing, IS flagged bad. -/
theorem freq_bad_years_flags_missing_cex :
    (Row.mk 2002 none).rain = none ∧
    Row.mk 2002 none ∈ [Row.mk 2001 (some 7), Row.mk 2002 none] ∧
    2002 ∈ freq_bad_years [Row.mk 2001 (some 7), Row.mk 2002 none] 100 := by decide

/-- C4, witness: series [(2001, 7), (2002, missing)], threshold 100, P = 50: the
missing-rainfall row stays in the loaded series but is flagged by neither policy. -/
theorem missing_rain_never_flagged_witness :
    ((([Row.mk 2001 (some 7), Row.mk 2002 none].map Row.year).Nodup ∧
      Row.mk 2002 none ∈ [Row.mk 2001 (some 7), Row.mk 2002 none] ∧
      (Row.mk 2002 none).rain = none) ∧
    ((∀ z, (some z, (none : Option ℚ)) ∈ [((some 5 : Option Int), (none : Option ℚ))] →
        Row.mk (z + 1990) none ∈ app_load_data [((some 5 : Option Int), (none : Option ℚ))]) ∧
      (Row.mk 2002 none).year ∉ app_bad_years [Row.mk 2001 (some 7), Row.mk 2002 none] 100 ∧
      (num_values [Row.mk 2001 (some 7), Row.mk 2002 none] 50 ≤
          non_missing_count [Row.mk 2001 (some 7), Row.mk 2002 none] →
        (Row.mk 2002 none).year ∉
          freq_bad_years [Row.mk 2001 (some 7), Row.mk 2002 none] 50))) :=
  ⟨⟨by decide, by decide, by decide⟩,
    missing_rain_never_flagged [((some 5 : Option Int), (none : Option ℚ))]
      [Row.mk 2001 (some 7), Row.mk 2002 none] 100 50 (Row.mk 2002 none)
      (by decide) (by decide) (by decide)⟩

/-- C3: with one series [(2000, 5)] and threshold T = 0 no year is flagged, yet
the MS dict comprehension still creates the key 2000 (with an empty column set),
so `if bad_years_dict:` is truthy and a "bad years" table is emitted whose row
2000 was flagged by no SeriesKey - against the claimed row-set invariant and the
claimed "no bad years" signal for an empty union. -/
theorem ms_bad_years_dict_unflagged_row :
    ms_flag [Row.mk 2000 (some 5)] 0 2000 = false ∧
    ms_bad_years_dict [("R - S", [Row.mk 2000 (some 5)])] 0 = [(2000, [])] := by decide

/-- C5: a row whose raw year cell failed to parse is NOT dropped by
`load_selected_seasons` (MS line 89): the realigning column assignment keeps it
with Year = NaN, so it enters the series - while the sibling loader
`load_data` (app.py lines 54-56) does drop it. -/
theorem ms_load_rows_keeps_unparsable_year :
    ms_load_rows [(none, some 3), (some 1, some 4)] 2026
      = [(none, some 3), (some 1, some 4)] ∧
    app_load_data [(none, some 3), (some 1, some 4)] = [Row.mk 1991 (some 4)] := by decide

/-- C8: in the raw year column [NaN, NaN, 1, 2] every PARSED value (1 and 2) is
below 1000 - a strict majority of the parsed values - yet the index-detection
test compares against `df.shape[0] / 2` counting the undropped NaN rows
(2 not-greater-than 4/2), so no `v + (currentYear - max)` shift is applied; with
the NaN rows absent the very same parsed values are shifted. -/
theorem ms_normalize_years_skips_on_nan_rows :
    2 * ((([none, none, some 1, some 2] :
          List (Option Int)).filterMap id).filter (fun v => v < 1000)).length >
      (([none, none, some 1, some 2] : List (Option Int)).filterMap id).length ∧
    ms_normalize_years [none, none, some 1, some 2] 2026
      = [none, none, some 1, some 2] ∧
    ms_normalize_years [some 1, some 2] 2026 = [some 2025, some 2026] := by decide

/-- C9: with regions selected in the order [A, B] and two seasons S1 (flagging
year 2000 for both regions) and S2 (flagging year 2001 for both), the displayed
column list comes out season-major - ["Year", A-S1, B-S1, A-S2, B-S2] - because
the region-major `column_order` of pages lines 106-111 is computed while the
frame still has only its Year column, and the real columns are appended later in
first-appearance order of the flag-map scan; the claimed region-major order
["Year", A-S1, A-S2, B-S1, B-S2] does not obtain. -/
theorem pages_final_columns_not_region_major :
    pages_final_columns ["A", "B"]
        (pages_all_bad_years
          [("S1", [("A", [Row.mk 2000 (some 1), Row.mk 2001 (some 9)]),
                   ("B", [Row.mk 2000 (some 2), Row.mk 2001 (some 8)])]),
           ("S2", [("A", [Row.mk 2001 (some 1), Row.mk 2000 (some 9)]),
                   ("B", [Row.mk 2001 (some 2), Row.mk 2000 (some 8)])])]
          ["A", "B"] 50)
      = ["Year", "A - S1", "B - S1", "A - S2", "B - S2"] ∧
    (["Year", "A - S1", "B - S1", "A - S2", "B - S2"] : List String)
      ≠ ["Year", "A - S1", "A - S2", "B - S1", "B - S2"] := by decide

theorem lookup_map_pair {β : Type} (f : String → β) (l : List String) (c : String)
    (hc : c ∈ l) : (l.map (fun x => (x, f x))).lookup c = some (f c) := by
  induction l with
  | nil => cases hc
  | cons x xs ih =>
    by_cases h : c = x
    · subst h
      simp [List.lookup]
    · have hbeq : (c == x) = false := by simpa using h
      have hxs : c ∈ xs := by
        rcases List.mem_cons.mp hc with rfl | hxs
        · exact absurd rfl h
        · exact hxs
      simpa [List.lookup, hbeq] using ih hxs

theorem spp_lookup (aby : List (Int × List String)) (sel : List Int) (c : String)
    (haby : aby ≠ []) (hsel : sel ≠ []) (hc : c ∈ aby_cols aby) :
    (selected_years_percentages aby sel).lookup c =
      some (((sel.filter (fun y => flagged_for aby c y)).length : ℚ) /
        (sel.length : ℚ) * 100) := by
  have hlen : 0 < sel.length := List.length_pos.mpr hsel
  unfold selected_years_percentages
  rw [if_pos ⟨haby, hsel⟩]
  rw [lookup_map_pair (fun c₀ => if 0 < sel.length then
      ((sel.filter (fun y => flagged_for aby c₀ y)).length : ℚ) /
        (sel.length : ℚ) * 100
    else 0) (aby_cols aby) c hc]
  rw [if_pos hlen]

theorem spp_nonneg (aby : List (Int × List String)) (sel : List Int) :
    ∀ p ∈ selected_years_percentages aby sel, 0 ≤ p.2 := by
  intro p hp
  unfold selected_years_percentages at hp
  by_cases hg : aby ≠ [] ∧ sel ≠ []
  · rw [if_pos hg] at hp
    rcases List.mem_map.mp hp with ⟨c, hc, rfl⟩
    dsimp only
    by_cases hlen : 0 < sel.length
    · rw [if_pos hlen]
      positivity
    · rw [if_neg hlen]
  · rw [if_neg hg] at hp
    cases hp

/-- C6: the historical frequency analyzer assigns every flagged column the value
`count / |S| * 100` where `count` is the number of chosen years flagged for that
column; on the spec scenario - "A - JJA" flagging {1995, 1998}, "B - JAS"
flagging {1998}, S = {1995, 1998, 2000} - it yields 200/3 % and 100/3 %, whose
two-decimal bar labels read 66.67 % and 33.33 %. -/
theorem selected_years_percentages_formula (aby : List (Int × List String))
    (sel : List Int) (c : String) (haby : aby ≠ []) (hsel : sel ≠ [])
    (hc : c ∈ aby_cols aby) :
    (selected_years_percentages aby sel).lookup c =
      some (((sel.filter (fun y => flagged_for aby c y)).length : ℚ) /
        (sel.length : ℚ) * 100) ∧
    (selected_years_percentages [(1995, ["A - JJA"]), (1998, ["A - JJA", "B - JAS"])]
        [1995, 1998, 2000]).lookup "A - JJA" = some (200/3) ∧
    (selected_years_percentages [(1995, ["A - JJA"]), (1998, ["A - JJA", "B - JAS"])]
        [1995, 1998, 2000]).lookup "B - JAS" = some (100/3) ∧
    display_round2 (200/3) = 6667/100 ∧
    display_round2 (100/3) = 3333/100 := by
  refine ⟨spp_lookup aby sel c haby hsel hc, ?_, ?_, ?_, ?_⟩
  · rw [spp_lookup _ _ _ (by decide) (by decide) (by decide)]
    have h2 : (([1995, 1998, 2000] : List Int).filter
        (fun y => flagged_for [(1995, ["A - JJA"]), (1998, ["A - JJA", "B - JAS"])]
          "A - JJA" y)).length = 2 := by decide
    rw [h2]
    norm_num
  · rw [spp_lookup _ _ _ (by decide) (by decide) (by decide)]
    have h1 : (([1995, 1998, 2000] : List Int).filter
        (fun y => flagged_for [(1995, ["A - JJA"]), (1998, ["A - JJA", "B - JAS"])]
          "B - JAS" y)).length = 1 := by decide
    rw [h1]
    norm_num
  · unfold display_round2
    have hf : Int.floor ((200 : ℚ)/3 * 100 + 1/2) = 6667 := by
      rw [Int.floor_eq_iff]
      constructor <;> norm_num
    rw [hf]
    norm_num
  · unfold display_round2
    have hf : Int.floor ((100 : ℚ)/3 * 100 + 1/2) = 3333 := by
      rw [Int.floor_eq_iff]
      constructor <;> norm_num
    rw [hf]
    norm_num

/-- C6, witness: the theorem applied to the spec scenario itself, at column
"A - JJA". -/
theorem selected_years_percentages_formula_witness :
    (([(1995, ["A - JJA"]), (1998, ["A - JJA", "B - JAS"])] :
          List (Int × List String)) ≠ [] ∧
      ([1995, 1998, 2000] : List Int) ≠ [] ∧
      "A - JJA" ∈ aby_cols [(1995, ["A - JJA"]), (1998, ["A - JJA", "B - JAS"])]) ∧
    (((selected_years_percentages [(1995, ["A - JJA"]), (1998, ["A - JJA", "B - JAS"])]
        [1995, 1998, 2000]).lookup "A - JJA" =
      some ((((([1995, 1998, 2000] : List Int)).filter
          (fun y => flagged_for [(1995, ["A - JJA"]), (1998, ["A - JJA", "B - JAS"])]
            "A - JJA" y)).length : ℚ) /
        ((([1995, 1998, 2000] : List Int)).length : ℚ) * 100)) ∧
    (selected_years_percentages [(1995, ["A - JJA"]), (1998, ["A - JJA", "B - JAS"])]
        [1995, 1998, 2000]).lookup "A - JJA" = some (200/3) ∧
    (selected_years_percentages [(1995, ["A - JJA"]), (1998, ["A - JJA", "B - JAS"])]
        [1995, 1998, 2000]).lookup "B - JAS" = some (100/3) ∧
    display_round2 (200/3) = 6667/100 ∧
    display_round2 (100/3) = 3333/100) :=
  ⟨⟨by decide, by decide, by decide⟩,
    selected_years_percentages_formula
      [(1995, ["A - JJA"]), (1998, ["A - JJA", "B - JAS"])] [1995, 1998, 2000]
      "A - JJA" (by decide) (by decide) (by decide)⟩

/-- C7 (amended): with an empty chosen year set the analyzer is skipped by the
guard `if all_bad_years and selected_years:` and produces NO entries at all (so
no division by zero occurs, but no column receives a 0 entry either - the inner
`else: ... = 0` branch of MS line 285 is unreachable); with a nonempty chosen
set every flagged column receives an entry, a 0 % one included, and the
"nothing notable" warning is raised exactly when there are no entries or every
percentage is zero. -/
theorem spp_empty_guard_and_entries (aby : List (Int × List String)) (sel : List Int)
    (hsel : sel ≠ []) :
    selected_years_percentages aby [] = [] ∧
    (∀ c ∈ aby_cols aby, ∃ q, (selected_years_percentages aby sel).lookup c = some q) ∧
    (show_chart aby sel = false ↔
      ∀ p ∈ selected_years_percentages aby sel, p.2 = 0) := by
  have hiff : show_chart aby sel = true ↔
      (¬ (selected_years_percentages aby sel).isEmpty = true ∧
        ∃ p ∈ selected_years_percentages aby sel, 0 < p.2) := by
    unfold show_chart
    rw [Bool.and_eq_true, List.any_eq_true]
    simp
  refine ⟨?_, ?_, ?_⟩
  · unfold selected_years_percentages
    rw [if_neg (by simp)]
  · intro c hc
    have haby : aby ≠ [] := by
      intro h
      rw [h] at hc
      cases hc
    exact ⟨_, spp_lookup aby sel c haby hsel hc⟩
  · constructor
    · intro h p hp
      have hnot : ¬ (¬ (selected_years_percentages aby sel).isEmpty = true ∧
          ∃ q ∈ selected_years_percentages aby sel, 0 < q.2) := by
        rw [← hiff, h]
        simp
      rcases not_and_or.mp hnot with h1 | h2
      · exfalso
        rw [not_not, List.isEmpty_iff] at h1
        rw [h1] at hp
        cases hp
      · push_neg at h2
        exact le_antisymm (h2 p hp) (spp_nonneg aby sel p hp)
    · intro hall
      cases hsc : show_chart aby sel with
      | false => rfl
      | true =>
        exfalso
        rcases (hiff.mp hsc).2 with ⟨p, hp, hpos⟩
        rw [hall p hp] at hpos
        exact lt_irrefl 0 hpos

/-- C7, counterexample to the claim as stated: flag map {1998 → {"A - JJA"}} and
S = ∅ - the claim promises "A - JJA" a percentage defined as 0 (and an entry even
at 0 %), but the guarded computation yields no entry at all for it. -/
theorem spp_no_entry_for_empty_sel :
    "A - JJA" ∈ aby_cols [(1998, ["A - JJA"])] ∧
    (selected_years_percentages [(1998, ["A - JJA"])] []).lookup "A - JJA" = none := by
  decide

/-- C7, witness: the amended theorem applied at flag map {1999 → {"C - JJAS"}}
and chosen years {1999, 2001}. -/
theorem spp_empty_guard_and_entries_witness :
    (([1999, 2001] : List Int) ≠ []) ∧
    (selected_years_percentages [((1999 : Int), ["C - JJAS"])] [] = [] ∧
    (∀ c ∈ aby_cols [((1999 : Int), ["C - JJAS"])],
      ∃ q, (selected_years_percentages [((1999 : Int), ["C - JJAS"])]
        [1999, 2001]).lookup c = some q) ∧
    (show_chart [((1999 : Int), ["C - JJAS"])] [1999, 2001] = false ↔
      ∀ p ∈ selected_years_percentages [((1999 : Int), ["C - JJAS"])] [1999, 2001],
        p.2 = 0)) :=
  ⟨by decide,
    spp_empty_guard_and_entries [((1999 : Int), ["C - JJAS"])] [1999, 2001] (by decide)⟩
